import Mathlib

/-!
Verification of the sports-meetup bot repository: a shallow embedding of the
application-lifecycle engine (`src/backend/src/events/applications_crud.py`,
`src/backend/src/events/repository.py`, `src/backend/src/events/router.py`)
and of the conversational flow handlers of the Telegram bot
(`src/bot/handlers/*.py`, `src/bot/utils.py`).

Database rows are modelled as Lean structures, the database as lists of rows,
and each CRUD operation as a pure function returning `Except` for the paths
where the Python code raises.  Timestamps (`datetime.now(UTC)`) are modelled
as abstract `Nat` instants supplied by the caller.
-/

namespace Backend

/-- Row of the `events` table (`src/backend/src/events/models.py`, class
`Event`); only the columns the lifecycle engine reads are kept. -/
structure EventRec where
  id : Nat
  creator_id : Nat
deriving DecidableEq

/-- Row of the `event_applications` table (class `EventApplication`).
`status` is the raw string column (`pending`, `approved` or `rejected`),
`reviewed_at` is nullable. -/
structure ApplicationRec where
  id : Nat
  event_id : Nat
  user_id : Nat
  status : String
  applied_at : Nat
  reviewed_at : Option Nat
deriving DecidableEq

/-- Row of the `event_participants` table (class `EventParticipant`). -/
structure ParticipantRec where
  event_id : Nat
  user_id : Nat
  joined_at : Nat
deriving DecidableEq

/-- The persistent state the lifecycle engine touches. -/
structure DB where
  events : List EventRec
  applications : List ApplicationRec
  participants : List ParticipantRec
deriving DecidableEq

/-- The `ValueError`s raised by `applications_crud.py` plus the 404 of the
router, by their meaning: "Заявка уже существует" (application already
exists), "Создатель события не может подать заявку" (creator cannot apply),
"Статус должен быть approved или rejected" (invalid status value),
"Заявка не найдена" (application not found). -/
inductive LifecycleError
  | duplicateApplication
  | selfApplication
  | invalidStatus
  | notFound
deriving DecidableEq

/-- Boolean success test for an `Except` result. -/
def excOk {ε α : Type} : Except ε α → Bool
  | .ok _ => true
  | .error _ => false

/-- `get_application` (`applications_crud.py` lines 45-66): select the
application for `(event_id, user_id)`, with no filter on status.
`scalar_one_or_none` assumes at most one matching row, which
`create_application` maintains; the first match models it. -/
def get_application (db : DB) (event_id user_id : Nat) : Option ApplicationRec :=
  db.applications.find? fun a => a.event_id == event_id && a.user_id == user_id

/-- `session.get(Event, event_id)`: primary-key lookup of an event. -/
def get_event (db : DB) (event_id : Nat) : Option EventRec :=
  db.events.find? fun e => e.id == event_id

/-- `get_application_by_id` (`applications_crud.py` lines 69-82). -/
def get_application_by_id (db : DB) (application_id : Nat) : Option ApplicationRec :=
  db.applications.find? fun a => a.id == application_id

/-- `EventRepository.get_participant` (`repository.py` lines 166-186). -/
def get_participant (db : DB) (event_id user_id : Nat) : Option ParticipantRec :=
  db.participants.find? fun p => p.event_id == event_id && p.user_id == user_id

/-- Number of participant rows stored for `(event_id, user_id)`. -/
def countParticipants (db : DB) (event_id user_id : Nat) : Nat :=
  (db.participants.filter fun p => p.event_id == event_id && p.user_id == user_id).length

/-- `create_application` (`applications_crud.py` lines 14-42): refuse when any
application for the pair exists (whatever its status), refuse when the
applicant created the event, otherwise insert a `pending` row.  `newId` models
the autoincrement key and `now` the `applied_at` server default. -/
def create_application (db : DB) (event_id user_id newId now : Nat) :
    Except LifecycleError (DB × ApplicationRec) :=
  if (get_application db event_id user_id).isSome then
    .error .duplicateApplication
  else if (get_event db event_id).any (fun ev => ev.creator_id == user_id) then
    .error .selfApplication
  else
    let app : ApplicationRec :=
      { id := newId, event_id := event_id, user_id := user_id,
        status := "pending", applied_at := now, reviewed_at := none }
    .ok ({ db with applications := db.applications ++ [app] }, app)

/-- `update_application_status` (`applications_crud.py` lines 145-185): reject
a status outside `approved`/`rejected` before touching the row; otherwise set
`status` and `reviewed_at`, and on `approved` insert a participant row unless
one already exists for the pair.  There is no check of the previous status. -/
def update_application_status (db : DB) (application : ApplicationRec)
    (status : String) (now : Nat) :
    Except LifecycleError (DB × ApplicationRec) :=
  if !(status == "approved" || status == "rejected") then
    .error .invalidStatus
  else
    let updated := { application with status := status, reviewed_at := some now }
    let apps := db.applications.map fun a => if a.id == application.id then updated else a
    let parts :=
      if status == "approved" then
        if (get_participant db application.event_id application.user_id).isSome then
          db.participants
        else
          db.participants ++ [{ event_id := application.event_id,
                                user_id := application.user_id, joined_at := now }]
      else db.participants
    .ok ({ db with applications := apps, participants := parts }, updated)

/-- `review_application` (`router.py` lines 332-353): look the application up
by id (404 when absent) and delegate to `update_application_status`; a
`ValueError` from the latter surfaces as a 400. -/
def review_application (db : DB) (application_id : Nat) (status : String) (now : Nat) :
    Except LifecycleError (DB × ApplicationRec) :=
  match get_application_by_id db application_id with
  | none => .error .notFound
  | some app => update_application_status db app status now

/-- The database after a call to `review_application`: the transaction commits
only on success, so an error leaves the stored state untouched. -/
def review_application_db (db : DB) (application_id : Nat) (status : String) (now : Nat) : DB :=
  match review_application db application_id status now with
  | .ok (db', _) => db'
  | .error _ => db

/-- Status of the application returned by a successful review. -/
def reviewResultStatus (db : DB) (application_id : Nat) (status : String) (now : Nat) :
    Option String :=
  match review_application db application_id status now with
  | .ok (_, app) => some app.status
  | .error _ => none

/-- A database holding one already-approved application, with its participant
row, exercising a repeat review. -/
def exDB : DB :=
  { events := [{ id := 10, creator_id := 99 }],
    applications := [{ id := 1, event_id := 10, user_id := 20, status := "approved",
                       applied_at := 0, reviewed_at := some 5 }],
    participants := [{ event_id := 10, user_id := 20, joined_at := 5 }] }

/-- The approved application stored in `exDB`. -/
def exApp : ApplicationRec :=
  { id := 1, event_id := 10, user_id := 20, status := "approved",
    applied_at := 0, reviewed_at := some 5 }

/-- A database holding one rejected application for `(event 10, user 20)`. -/
def rejDB : DB :=
  { events := [{ id := 10, creator_id := 99 }],
    applications := [{ id := 1, event_id := 10, user_id := 20, status := "rejected",
                       applied_at := 0, reviewed_at := some 3 }],
    participants := [] }

/-- A database holding one pending application and no participant row. -/
def penDB : DB :=
  { events := [{ id := 10, creator_id := 99 }],
    applications := [{ id := 1, event_id := 10, user_id := 20, status := "pending",
                       applied_at := 0, reviewed_at := none }],
    participants := [] }

end Backend

namespace Bot

/-- Kinds of message sent back to the chat by a step handler: `rejection` is a
validation re-prompt ("❌ …" plus the unchanged step), `prompt` announces the
next step, `success` reports a completed finalize, `failure` reports a failed
finalize or lookup, `toggled` is the sports multi-select feedback. -/
inductive Reply
  | rejection
  | prompt
  | success
  | failure
  | toggled
deriving DecidableEq

/-- Steps of the registration flow (`src/bot/states/registration.py`). -/
inductive RegStep
  | waitingAge
  | waitingGender
  | waitingCity
  | waitingSports
deriving DecidableEq

/-- Scratch data the registration flow accumulates in
`bot.retrieve_data` (`data["age"]`, `data["gender"]`, `data["city"]`,
`data["sports"]`). -/
structure RegScratch where
  age : Option Int
  gender : Option String
  city : Option String
  sports : List String
deriving DecidableEq

/-- Steps of the event-creation flow (`src/bot/states/event_creation.py`). -/
inductive EventStep
  | waitingTitle
  | waitingDate
  | waitingLocation
  | waitingSportType
  | waitingMaxParticipants
  | waitingFee
  | waitingNote
deriving DecidableEq

/-- Scratch data of the event-creation flow.  The parsed datetime stored by
`process_event_date` is modelled as an abstract `Nat` instant; fees and
coordinates (Python floats) are modelled as rationals. -/
structure EventScratch where
  title : Option String
  date : Option Nat
  location : Option String
  latitude : Option Rat
  longitude : Option Rat
  sport_type : Option String
  max_participants : Option Int
  fee : Option Rat
deriving DecidableEq

/-- Python `str.strip()`: drop whitespace from both ends. -/
def pyStrip (s : String) : String :=
  String.mk
    (((s.toList.dropWhile fun c => c.isWhitespace).reverse.dropWhile
        fun c => c.isWhitespace).reverse)

/-- `s.startswith(p)`, computed on the character lists. -/
def startsWithStr (s p : String) : Bool :=
  p.toList.isPrefixOf s.toList

/-- `replaceAllFuel pat repl fuel l` replaces every non-overlapping
occurrence of `pat` in `l` by `repl`, scanning left to right; `fuel` bounds
the recursion and `l.length` always suffices for a non-empty `pat`. -/
def replaceAllFuel (pat repl : List Char) : Nat → List Char → List Char
  | _, [] => []
  | 0, l => l
  | fuel + 1, c :: rest =>
    if pat.isPrefixOf (c :: rest) ∧ pat ≠ [] then
      repl ++ replaceAllFuel pat repl fuel ((c :: rest).drop pat.length)
    else c :: replaceAllFuel pat repl fuel rest

/-- Python `s.replace(pat, repl)` for a non-empty pattern. -/
def pyReplace (s pat repl : String) : String :=
  String.mk (replaceAllFuel pat.toList repl.toList s.toList.length s.toList)

/-- Accumulate decimal digits; fails on the first non-digit. -/
def parseNatDigits : List Char → Nat → Option Nat
  | [], acc => some acc
  | c :: rest, acc =>
    if c.isDigit then parseNatDigits rest (acc * 10 + (c.toNat - 48))
    else none

/-- Python `int(s)` on an already-stripped string: optional sign followed by
decimal digits.  (Python additionally accepts underscore digit grouping,
which no flow depends on.) -/
def pyParseInt (s : String) : Option Int :=
  match s.toList with
  | [] => none
  | '-' :: rest =>
    if rest.isEmpty then none else (parseNatDigits rest 0).map (fun n => -(n : Int))
  | '+' :: rest =>
    if rest.isEmpty then none else (parseNatDigits rest 0).map (fun n => (n : Int))
  | cs => (parseNatDigits cs 0).map (fun n => (n : Int))

/-- Python `str.lower` restricted to the alphabets the flows compare
("пропустить"): ASCII letters and the Russian alphabet. -/
def pyLowerChar (c : Char) : Char :=
  if 65 ≤ c.toNat ∧ c.toNat ≤ 90 then Char.ofNat (c.toNat + 32)
  else if 1040 ≤ c.toNat ∧ c.toNat ≤ 1071 then Char.ofNat (c.toNat + 32)
  else if c.toNat = 1025 then Char.ofNat 1105
  else c

/-- Python `str.lower` on a whole string. -/
def pyLower (s : String) : String :=
  String.mk (s.toList.map pyLowerChar)

/-- `process_age` (`src/bot/handlers/registration.py` lines 101-158): reject a
missing text, a text `int()` cannot parse, or an age outside 10-100, leaving
the step and scratch untouched; otherwise store the age and move to the
gender step. -/
def process_age (scratch : RegScratch) (text : String) :
    RegStep × RegScratch × Reply :=
  if text = "" then (.waitingAge, scratch, .rejection)
  else
    match pyParseInt (pyStrip text) with
    | none => (.waitingAge, scratch, .rejection)
    | some age =>
      if age < 10 ∨ age > 100 then (.waitingAge, scratch, .rejection)
      else (.waitingGender, { scratch with age := some age }, .prompt)

/-- `process_event_date` (`src/bot/handlers/events.py` lines 98-121).
`parsed` is the outcome of `datetime.strptime(text.strip(), "%d.%m.%Y %H:%M")`
(a library call), `none` when it raises `ValueError`; `now` is
`datetime.now()`.  A missing text, an unparseable text, or a past date is
rejected with the session untouched. -/
def process_event_date (scratch : EventScratch) (text : String)
    (parsed : Option Nat) (now : Nat) :
    EventStep × EventScratch × Reply :=
  if text = "" then (.waitingDate, scratch, .rejection)
  else
    match parsed with
    | none => (.waitingDate, scratch, .rejection)
    | some d =>
      if d < now then (.waitingDate, scratch, .rejection)
      else (.waitingLocation, { scratch with date := some d }, .prompt)

/-- `process_event_max_participants` (`events.py` lines 176-191): parse an
integer (`ValueError` re-prompts); a value of 0 or less is stored as `None`
("unlimited"). -/
def process_event_max_participants (scratch : EventScratch) (text : String) :
    EventStep × EventScratch × Reply :=
  match pyParseInt (pyStrip text) with
  | none => (.waitingMaxParticipants, scratch, .rejection)
  | some n =>
    let mp := if n ≤ 0 then none else some n
    (.waitingFee, { scratch with max_participants := mp }, .prompt)

/-- `process_event_fee` (`events.py` lines 193-208).  `parsed` is the outcome
of `float(text.replace(",", "."))` (a library call), `none` when it raises; a
fee of 0 or less is stored as `None` ("free"). -/
def process_event_fee (scratch : EventScratch) (parsed : Option Rat) :
    EventStep × EventScratch × Reply :=
  match parsed with
  | none => (.waitingFee, scratch, .rejection)
  | some q =>
    let fee := if q ≤ 0 then none else some q
    (.waitingNote, { scratch with fee := fee }, .prompt)

/-- Keyword payload of the `api_client.create_event` call issued by the
finalize step of event creation. -/
structure EventPayload where
  title : Option String
  date : Option Nat
  creator_id : Nat
  location : Option String
  latitude : Option Rat
  longitude : Option Rat
  sport_type : Option String
  max_participants : Option Int
  fee : Option Rat
  note : Option String
deriving DecidableEq

/-- `process_event_note` (`events.py` lines 210-275), the terminal step of
event creation.  `user` is the result of `get_user_by_telegram_id` (the
stored user id), `createOk` whether `api_client.create_event` succeeds.
Result: the session after the handler (`none` when `delete_state` ran), the
reply, and the payload passed to `create_event` (`none` when no call was
attempted).  On a failed create the handler reports a failure but performs no
`delete_state`. -/
def process_event_note (scratch : EventScratch) (text : String)
    (user : Option Nat) (createOk : Bool) :
    Option (EventStep × EventScratch) × Reply × Option EventPayload :=
  if text = "" then (some (.waitingNote, scratch), .rejection, none)
  else
    let note := if pyLower text ≠ "пропустить" then some (pyStrip text) else none
    match user with
    | none => (none, .failure, none)
    | some uid =>
      let payload : EventPayload :=
        { title := scratch.title, date := scratch.date, creator_id := uid,
          location := scratch.location, latitude := scratch.latitude,
          longitude := scratch.longitude, sport_type := scratch.sport_type,
          max_participants := scratch.max_participants, fee := scratch.fee,
          note := note }
      if createOk then (none, .success, some payload)
      else (some (.waitingNote, scratch), .failure, some payload)

/-- `process_sport_selection` (`src/bot/handlers/registration.py` lines
221-297), the terminal step of registration.  For `sports_done`: an empty
selection is rejected; otherwise the profile is saved (`update_user` or
`get_or_create_user`, both inside one `try`), `saveOk` telling whether the
save raised.  On a failed save the handler reports a failure but performs no
`delete_state`.  Any other callback toggles the sport in the scratch list. -/
def process_sport_selection (scratch : RegScratch) (data : String)
    (saveOk : Bool) :
    Option (RegStep × RegScratch) × Reply :=
  if data = "sports_done" then
    if scratch.sports = [] then (some (.waitingSports, scratch), .rejection)
    else if saveOk then (none, .success)
    else (some (.waitingSports, scratch), .failure)
  else
    let sport := pyReplace data "sport_" ""
    let sports' :=
      if scratch.sports.contains sport then scratch.sports.erase sport
      else scratch.sports ++ [sport]
    (some (.waitingSports, { scratch with sports := sports' }), .toggled)

/-- `gender_map` of `process_gender` (`registration.py` line 168). -/
def gender_map : List (String × String) :=
  [("gender_male", "male"), ("gender_female", "female"), ("gender_other", "other")]

/-- `gender_map.get(call.data, "other")`: dictionary lookup with default. -/
def gender_map_get (d : String) : String :=
  ((gender_map.find? fun kv => kv.1 == d).map Prod.snd).getD "other"

/-- The checker built by `create_callback_state_checker(bot,
RegistrationStates.waiting_gender, "gender_")` (`src/bot/utils.py` lines
213-245): the callback reaches `process_gender` exactly when its data starts
with `gender_` and the session is at the gender step. -/
def check_gender_callback (st : Option RegStep) (d : String) : Bool :=
  startsWithStr d "gender_" && st == some RegStep.waitingGender

/-- `process_gender` (`registration.py` lines 160-184): store the mapped
gender — `other` for any data outside the map — and advance to the city
step. -/
def process_gender (scratch : RegScratch) (d : String) :
    RegStep × RegScratch × Reply :=
  (.waitingCity, { scratch with gender := some (gender_map_get d) }, .prompt)

/-- Registration scratch with no field collected yet. -/
def emptyReg : RegScratch :=
  { age := none, gender := none, city := none, sports := [] }

/-- Every FSM state a session can be parked at, across the four state groups
of `src/bot/states/` (telebot stores them as `"ClassName:attr"` strings, so
equally-named attributes of different groups never collide). -/
inductive FSMState
  | regWaitingAge
  | regWaitingGender
  | regWaitingCity
  | regWaitingSports
  | evWaitingTitle
  | evWaitingDate
  | evWaitingLocation
  | evWaitingSportType
  | evWaitingMaxParticipants
  | evWaitingFee
  | evWaitingNote
  | wWaitingAction
  | wWaitingExerciseChoice
  | wWaitingExerciseInput
  | wWaitingDate
  | wWaitingWeight
  | wWaitingProgressExercise
  | admWaitingBroadcastText
  | admWaitingBroadcastConfirm
  | admWaitingPersonalSelect
  | admWaitingPersonalText
  | admWaitingPersonalConfirm
deriving DecidableEq, Fintype

/-- `telebot.util.extract_command`: for a text starting with `/`, the first
whitespace-separated word, cut at `@`, without the leading slash. -/
def extract_command (text : String) : Option String :=
  if startsWithStr text "/" then
    some (String.mk
      (((text.toList.takeWhile fun c => !c.isWhitespace).takeWhile
          fun c => !(c == '@')).drop 1))
  else none

/-- `src/bot/bot.py` creates the `TeleBot` and registers no custom filter
(`add_custom_filter` is never called), so handlers declared with the
`state=...` keyword are tested against an unknown filter and never match. -/
def state_filters_registered : Bool := false

/-- The message handlers of the bot, one constructor per
`@bot.message_handler` registration, named after the decorated function
(`src/bot/handlers/`, registration order of `register_all_handlers`). -/
inductive MsgHandler
  | cmd_start_h
  | cmd_help_h
  | start_my_events_h
  | start_search_h
  | start_profile_h
  | start_create_h
  | cmd_register_h
  | process_age_h
  | process_city_h
  | profile_btn_h
  | create_event_btn_h
  | event_title_h
  | event_date_h
  | event_location_h
  | event_max_h
  | event_fee_h
  | event_note_h
  | search_btn_h
  | my_events_btn_h
  | cmd_applications_h
  | applications_btn_h
  | weights_btn_h
  | weight_exercise_input_h
  | weight_date_h
  | weight_value_h
  | admin_menu_h
  | admin_back_h
  | broadcast_btn_h
  | personal_btn_h
  | personal_text_h
  | broadcast_text_h
  | cmd_cancel_h
  | unknown_message_h
deriving DecidableEq

/-- Whether a handler's filters accept a text message in session state `st`
(telebot tests them in sequence and the first match consumes the message):
`commands=[..]` compares `extract_command`; button handlers compare the text
literally; `create_state_checker` checkers skip any `/…` text, then compare
the state; `state=`-keyword handlers additionally require a registered custom
state filter (`state_filters_registered`); the unknown-message handler
requires no active state. -/
def handlerAccepts (h : MsgHandler) (text : String) (st : Option FSMState) : Bool :=
  match h with
  | .cmd_start_h => extract_command text == some "start"
  | .cmd_help_h => extract_command text == some "help"
  | .start_my_events_h => text == "📋 Мои тренировки"
  | .start_search_h => text == "🔍 Найти тренировку"
  | .start_profile_h => text == "👤 Профиль"
  | .start_create_h => text == "➕ Создать тренировку"
  | .cmd_register_h => extract_command text == some "register"
  | .process_age_h => !startsWithStr text "/" && st == some .regWaitingAge
  | .process_city_h => !startsWithStr text "/" && st == some .regWaitingCity
  | .profile_btn_h => text == "👤 Профиль"
  | .create_event_btn_h => text == "➕ Создать тренировку"
  | .event_title_h => !startsWithStr text "/" && st == some .evWaitingTitle
  | .event_date_h => !startsWithStr text "/" && st == some .evWaitingDate
  | .event_location_h => !startsWithStr text "/" && st == some .evWaitingLocation
  | .event_max_h => !startsWithStr text "/" && st == some .evWaitingMaxParticipants
  | .event_fee_h => !startsWithStr text "/" && st == some .evWaitingFee
  | .event_note_h => !startsWithStr text "/" && st == some .evWaitingNote
  | .search_btn_h => text == "🔍 Найти тренировку"
  | .my_events_btn_h => text == "📋 Мои тренировки"
  | .cmd_applications_h =>
    extract_command text == some "applications" || text == "📝 Заявки"
  | .applications_btn_h => text == "📝 Заявки"
  | .weights_btn_h => text == "⚖️ Мои рабочие веса"
  | .weight_exercise_input_h =>
    state_filters_registered && st == some .wWaitingExerciseInput
  | .weight_date_h => state_filters_registered && st == some .wWaitingDate
  | .weight_value_h => state_filters_registered && st == some .wWaitingWeight
  | .admin_menu_h => text == "Администрирование"
  | .admin_back_h => text == "⬅️ Назад"
  | .broadcast_btn_h => text == "📣 Рассылка всем"
  | .personal_btn_h => text == "✉️ Личное сообщение"
  | .personal_text_h =>
    state_filters_registered && st == some .admWaitingPersonalText
  | .broadcast_text_h =>
    state_filters_registered && st == some .admWaitingBroadcastText
  | .cmd_cancel_h => extract_command text == some "cancel"
  | .unknown_message_h => st == none

/-- The message handlers in the order `register_all_handlers`
(`src/bot/handlers/__init__.py`) registers them: start, registration,
profile, events, applications, weights, admin, unknown. -/
def handlersInOrder : List MsgHandler :=
  [.cmd_start_h, .cmd_help_h, .start_my_events_h, .start_search_h,
   .start_profile_h, .start_create_h,
   .cmd_register_h, .process_age_h, .process_city_h,
   .profile_btn_h,
   .create_event_btn_h, .event_title_h, .event_date_h, .event_location_h,
   .event_max_h, .event_fee_h, .event_note_h, .search_btn_h, .my_events_btn_h,
   .cmd_applications_h, .applications_btn_h,
   .weights_btn_h, .weight_exercise_input_h, .weight_date_h, .weight_value_h,
   .admin_menu_h, .admin_back_h, .broadcast_btn_h, .personal_btn_h,
   .personal_text_h, .broadcast_text_h,
   .cmd_cancel_h, .unknown_message_h]

/-- telebot dispatch: the first registered handler whose filters accept the
message handles it; later handlers never see it. -/
def dispatchMessage (text : String) (st : Option FSMState) : Option MsgHandler :=
  handlersInOrder.find? fun h => handlerAccepts h text st

/-- Replies of `cmd_cancel`. -/
inductive CancelReply
  | cancelled
  | nothingToCancel
deriving DecidableEq

/-- Effect of a bot handler on the session, together with the names of the
`api_client` methods it invokes (domain writes). -/
structure CancelResult where
  session : Option FSMState
  reply : CancelReply
  api_calls : List String
deriving DecidableEq

/-- `cmd_cancel` (`src/bot/handlers/unknown.py` lines 20-42): with an active
state, `delete_state` plus the "Процесс отменён" message; otherwise only the
"Нет активного процесса" message.  The handler body contains no `api_client`
call, hence the empty write list. -/
def cmd_cancel (st : Option FSMState) : CancelResult :=
  match st with
  | some _ => { session := none, reply := .cancelled, api_calls := [] }
  | none => { session := none, reply := .nothingToCancel, api_calls := [] }

/-- A user row as `get_admin_users` returns it to the broadcast loop; the
loop guards against a missing `telegram_id` even though the column is
non-nullable. -/
structure AdminUserRec where
  id : Nat
  telegram_id : Option Nat
deriving DecidableEq

/-- The three counters of `_send_broadcast_async`. -/
structure BroadcastCounts where
  total_count : Nat
  success_count : Nat
  fail_count : Nat
deriving DecidableEq

/-- A `broadcasts` row (`src/backend/src/broadcasts/models.py`). -/
structure BroadcastRec where
  id : Nat
  text : String
  status : String
  total_count : Option Nat
  success_count : Option Nat
  fail_count : Option Nat
deriving DecidableEq

/-- The recipient loop of `_send_broadcast_async` (`src/bot/handlers/admin.py`
lines 373-393), with the running counters and the list of recipients a send
was actually attempted to (`bot.send_message` reached): every user bumps
`total_count`; a user without `telegram_id` is counted as a failure without
an attempt; otherwise the send is attempted (`sendOk` tells whether
`bot.send_message` raised) and the matching counter bumped; the loop always
continues. -/
def broadcast_send_loop (sendOk : Nat → Bool)
    (acc : BroadcastCounts × List Nat) :
    List AdminUserRec → BroadcastCounts × List Nat
  | [] => acc
  | u :: rest =>
    let c := acc.1
    match u.telegram_id with
    | none =>
      broadcast_send_loop sendOk
        ({ c with total_count := c.total_count + 1,
                  fail_count := c.fail_count + 1 }, acc.2) rest
    | some tid =>
      if sendOk tid then
        broadcast_send_loop sendOk
          ({ c with total_count := c.total_count + 1,
                    success_count := c.success_count + 1 },
           acc.2 ++ [tid]) rest
      else
        broadcast_send_loop sendOk
          ({ c with total_count := c.total_count + 1,
                    fail_count := c.fail_count + 1 },
           acc.2 ++ [tid]) rest

/-- `BroadcastRepository.complete_broadcast`
(`src/backend/src/broadcasts/repository.py`): persist the three counters and
mark the broadcast completed. -/
def complete_broadcast (b : BroadcastRec) (total success fail : Nat) : BroadcastRec :=
  { b with total_count := some total, success_count := some success,
           fail_count := some fail, status := "completed" }

/-- `_send_broadcast_async` after the broadcast row exists: run the loop over
all recipients, persist the counters via `complete_broadcast`, and report the
same three counters to the admin (the result's `BroadcastCounts` is the
reported triple). -/
def send_broadcast_async (users : List AdminUserRec) (sendOk : Nat → Bool)
    (b : BroadcastRec) : BroadcastRec × BroadcastCounts × List Nat :=
  let r := broadcast_send_loop sendOk ({ total_count := 0, success_count := 0,
                                         fail_count := 0 }, []) users
  (complete_broadcast b r.1.total_count r.1.success_count r.1.fail_count, r.1, r.2)

/-- The three example recipients of the spec scenario; recipient 2's send
fails. -/
def exUsers : List AdminUserRec :=
  [{ id := 1, telegram_id := some 1 }, { id := 2, telegram_id := some 2 },
   { id := 3, telegram_id := some 3 }]

/-- Send outcome for the scenario: only recipient 2 fails. -/
def exSendOk (tid : Nat) : Bool :=
  !(tid == 2)

/-- A fresh broadcast row before completion. -/
def exBroadcast : BroadcastRec :=
  { id := 1, text := "hi", status := "pending", total_count := none,
    success_count := none, fail_count := none }

/-- Event scratch as it stands at the note step of a typical flow. -/
def exEventScratch : EventScratch :=
  { title := some "Morning run", date := some 100, location := some "Park",
    latitude := none, longitude := none, sport_type := some "Бег",
    max_participants := some 5, fee := none }

/-- Registration scratch with one sport selected, ready to finalize. -/
def exRegScratch : RegScratch :=
  { age := some 25, gender := some "male", city := some "Berlin",
    sports := ["Бег"] }

/-- The payload `process_event_note` builds from `exEventScratch` for user 1
with note text `note`. -/
def exPayload : EventPayload :=
  { title := some "Morning run", date := some 100, creator_id := 1,
    location := some "Park", latitude := none, longitude := none,
    sport_type := some "Бег", max_participants := some 5, fee := none,
    note := some "note" }

/-- One message delivered to the age step: the handler fires only when the
session is at `waiting_age` (its `create_state_checker` guard). -/
def applyAge (st : RegStep × RegScratch) (t : String) : RegStep × RegScratch :=
  if st.1 = RegStep.waitingAge then
    ((process_age st.2 t).1, (process_age st.2 t).2.1)
  else st

/-- One message delivered to the event date step, guarded the same way. -/
def applyDate (now : Nat) (st : EventStep × EventScratch)
    (i : String × Option Nat) : EventStep × EventScratch :=
  if st.1 = EventStep.waitingDate then
    ((process_event_date st.2 i.1 i.2 now).1,
     (process_event_date st.2 i.1 i.2 now).2.1)
  else st

end Bot

namespace Backend

lemma filter_length_eq_zero_of_find?_none {α : Type} (p : α → Bool) :
    ∀ l : List α, l.find? p = none → (l.filter p).length = 0 := by
  intro l
  induction l with
  | nil => intro _; rfl
  | cons x xs ih =>
    intro h
    cases hx : p x with
    | true => simp [List.find?, hx] at h
    | false =>
      simp only [List.find?, hx] at h
      simpa [List.filter, hx] using ih h

lemma one_le_filter_length_of_find?_some {α : Type} (p : α → Bool) :
    ∀ (l : List α) (x : α), l.find? p = some x → 1 ≤ (l.filter p).length := by
  intro l
  induction l with
  | nil => intro x h; simp [List.find?] at h
  | cons y ys ih =>
    intro x h
    cases hy : p y with
    | true => simp [List.filter, hy]
    | false =>
      simp only [List.find?, hy] at h
      simpa [List.filter, hy] using ih x h

lemma find?_id_map_update (appId : Nat) (upd : ApplicationRec) :
    ∀ (apps : List ApplicationRec) (app : ApplicationRec),
      apps.find? (fun a => a.id == appId) = some app → upd.id = app.id →
      (apps.map fun a => if a.id == app.id then upd else a).find?
        (fun a => a.id == appId) = some upd := by
  intro apps
  induction apps with
  | nil => intro app h _; simp [List.find?] at h
  | cons x rest ih =>
    intro app h hid
    have hpred : (app.id == appId) = true := by
      have := List.find?_some h
      simpa using List.find?_some h
    by_cases hx : (x.id == appId) = true
    · have hxa : x = app := by
        simp [List.find?, hx] at h
        exact h
      subst hxa
      simp [List.find?, hx, hid]
    · have hne : (x.id == x.id) = true := by simp
      have hxa : (x.id == app.id) = false := by
        have happ : app.id = appId := by simpa using hpred
        have hxne : ¬ x.id = appId := by simpa using hx
        simp [happ]
        intro hc
        exact hxne (by simpa [happ] using congrArg (fun n => n) hc)
      simp only [List.find?, hx] at h
      simpa [List.map, hxa, hx, List.find?] using ih app h hid

/-- Claim C1 fails on the code: application 1 of `exDB` is already approved,
yet a second `review` call with decision `rejected` succeeds (it does not
fail with `AlreadyReviewed`) and overwrites the terminal status. -/
theorem review_second_call_overwrites_terminal_status :
    excOk (review_application exDB 1 "rejected" 7) = true ∧
      reviewResultStatus exDB 1 "rejected" 7 = some "rejected" := by
  constructor <;> rfl

/-- Claim C1 (amended): `update_application_status` performs no check of the
previous status, so a repeat `review` with a valid decision always succeeds,
overwriting `status` and `reviewed_at` of the application whatever its
current (even terminal) status. -/
theorem review_overwrites_any_status (db : DB) (appId now : Nat)
    (app : ApplicationRec) (s : String)
    (hfind : get_application_by_id db appId = some app)
    (hs : s = "approved" ∨ s = "rejected") :
    ∃ db', review_application db appId s now =
      .ok (db', { app with status := s, reviewed_at := some now }) := by
  unfold review_application
  rw [hfind]
  unfold update_application_status
  rcases hs with h | h <;> subst h <;> exact ⟨_, rfl⟩

/-- Witness for `review_overwrites_any_status` at `exDB`. -/
theorem review_overwrites_any_status_witness :
    ∃ db', review_application exDB 1 "rejected" 7 =
      .ok (db', { exApp with status := "rejected", reviewed_at := some 7 }) :=
  review_overwrites_any_status exDB 1 7 exApp "rejected" (by decide) (Or.inr rfl)

/-- Claim C2: reviewing a pending application with decision `approved` sets
`status := approved` and `reviewed_at`, and afterwards exactly one participant
row exists for the `(event_id, user_id)` pair: one is inserted when none was
there, and none is added when one already existed. -/
theorem review_approve_pending_unique_participant
    (db : DB) (appId now : Nat) (app : ApplicationRec)
    (hfind : get_application_by_id db appId = some app)
    (hpending : app.status = "pending")
    (hcount : countParticipants db app.event_id app.user_id ≤ 1) :
    ∃ db', review_application db appId "approved" now =
        .ok (db', { app with status := "approved", reviewed_at := some now }) ∧
      get_application_by_id db' appId =
        some { app with status := "approved", reviewed_at := some now } ∧
      countParticipants db' app.event_id app.user_id = 1 := by
  unfold review_application
  rw [hfind]
  unfold update_application_status
  refine ⟨_, rfl, ?_, ?_⟩
  · unfold get_application_by_id at hfind ⊢
    exact find?_id_map_update appId _ db.applications app hfind rfl
  unfold countParticipants at hcount ⊢
  unfold get_participant
  cases hp : db.participants.find?
      (fun p => p.event_id == app.event_id && p.user_id == app.user_id) with
  | none =>
    have hz := filter_length_eq_zero_of_find?_none
      (fun p => p.event_id == app.event_id && p.user_id == app.user_id) db.participants hp
    simp [hp, List.filter_append, hz]
  | some p =>
    have hone := one_le_filter_length_of_find?_some
      (fun p => p.event_id == app.event_id && p.user_id == app.user_id) db.participants p hp
    simp [hp]
    omega

/-- Witness for `review_approve_pending_unique_participant` at `penDB`. -/
theorem review_approve_pending_unique_participant_witness :
    ∃ db', review_application penDB 1 "approved" 7 =
        .ok (db', { id := 1, event_id := 10, user_id := 20, status := "approved",
                    applied_at := 0, reviewed_at := some 7 }) ∧
      get_application_by_id db' 1 =
        some { id := 1, event_id := 10, user_id := 20, status := "approved",
               applied_at := 0, reviewed_at := some 7 } ∧
      countParticipants db' 10 20 = 1 :=
  review_approve_pending_unique_participant penDB 1 7
    { id := 1, event_id := 10, user_id := 20, status := "pending",
      applied_at := 0, reviewed_at := none }
    (by decide) rfl (by decide)

/-- Claim C3 fails on the code: in `rejDB` the previous application of user 20
for event 10 was rejected, yet a new `apply` still fails with
`DuplicateApplication`, because `get_application` filters only on the pair and
not on the status. -/
theorem reapply_after_rejection_blocked :
    create_application rejDB 10 20 2 9 = .error .duplicateApplication := by
  rfl

/-- Claim C3 (amended): `apply` fails with `DuplicateApplication` exactly when
any application row exists for the `(event_id, user_id)` pair, regardless of
its status; in particular a user whose application was rejected cannot apply
again. -/
theorem create_application_duplicate_iff (db : DB) (e u newId now : Nat) :
    create_application db e u newId now = .error .duplicateApplication ↔
      (get_application db e u).isSome = true := by
  unfold create_application
  cases hS : (get_application db e u).isSome with
  | true => simp [hS]
  | false =>
    simp only [hS, Bool.false_eq_true, if_false, iff_false]
    by_cases hA : (get_event db e).any (fun ev => ev.creator_id == u)
    · simp [hA]
    · simp [hA]

/-- Claim C10: a decision string other than `approved`/`rejected` is refused
by `update_application_status` before any field assignment, so the review
fails with the invalid-status error and the stored state is unchanged. -/
theorem review_invalid_decision_rejected_atomically
    (db : DB) (appId now : Nat) (s : String) (app : ApplicationRec)
    (hfind : get_application_by_id db appId = some app)
    (h1 : s ≠ "approved") (h2 : s ≠ "rejected") :
    review_application db appId s now = .error .invalidStatus ∧
      review_application_db db appId s now = db := by
  have hmain : review_application db appId s now = .error .invalidStatus := by
    unfold review_application
    rw [hfind]
    unfold update_application_status
    simp [h1, h2]
  refine ⟨hmain, ?_⟩
  unfold review_application_db
  rw [hmain]

/-- Witness for `review_invalid_decision_rejected_atomically` at `penDB` with
the invalid decision string `cancelled`. -/
theorem review_invalid_decision_witness :
    review_application penDB 1 "cancelled" 7 = .error .invalidStatus ∧
      review_application_db penDB 1 "cancelled" 7 = penDB :=
  review_invalid_decision_rejected_atomically penDB 1 7 "cancelled"
    { id := 1, event_id := 10, user_id := 20, status := "pending",
      applied_at := 0, reviewed_at := none }
    (by decide) (by decide) (by decide)

end Backend

namespace Bot

lemma process_age_rejected_unchanged (sc : RegScratch) (t : String)
    (h : (process_age sc t).2.2 = Reply.rejection) :
    process_age sc t = (RegStep.waitingAge, sc, Reply.rejection) := by
  by_cases h0 : t = ""
  · simp [process_age, h0]
  · cases hp : pyParseInt (pyStrip t) with
    | none => simp [process_age, h0, hp]
    | some a =>
      by_cases hr : a < 10 ∨ a > 100
      · simp [process_age, h0, hp, hr]
      · exfalso
        simp [process_age, h0, hp, hr] at h

lemma process_event_date_rejected_unchanged (sc : EventScratch) (t : String)
    (parsed : Option Nat) (now : Nat)
    (h : (process_event_date sc t parsed now).2.2 = Reply.rejection) :
    process_event_date sc t parsed now = (EventStep.waitingDate, sc, Reply.rejection) := by
  by_cases h0 : t = ""
  · simp [process_event_date, h0]
  · cases parsed with
    | none => simp [process_event_date, h0]
    | some d =>
      by_cases hd : d < now
      · simp [process_event_date, h0, hd]
      · exfalso
        simp [process_event_date, h0, hd] at h

/-- Claim C4 fails on the code: at the terminal note step, when
`create_event` raises, `process_event_note` reports the failure but performs
no `delete_state`, so the session stays parked at the terminal step. -/
theorem finalize_failure_leaves_session :
    (process_event_note exEventScratch "ok" (some 1) false).1 =
        some (EventStep.waitingNote, exEventScratch) ∧
      (process_event_note exEventScratch "ok" (some 1) false).2.1 = Reply.failure := by
  constructor <;> rfl

/-- Claim C4 (amended): when the terminal finalize action fails, a
user-visible failure message is reported but the session is NOT cleared: both
the event-creation and the registration flow keep the session parked at the
terminal step. -/
theorem finalize_failure_keeps_terminal_session :
    (∀ (sc : EventScratch) (t : String) (uid : Nat), t ≠ "" →
        (process_event_note sc t (some uid) false).1 =
            some (EventStep.waitingNote, sc) ∧
          (process_event_note sc t (some uid) false).2.1 = Reply.failure) ∧
    (∀ sc : RegScratch, sc.sports ≠ [] →
        process_sport_selection sc "sports_done" false =
          (some (RegStep.waitingSports, sc), Reply.failure)) := by
  constructor
  · intro sc t uid h
    constructor <;> simp [process_event_note, h]
  · intro sc h
    simp [process_sport_selection, h]

/-- Witness for `finalize_failure_keeps_terminal_session`. -/
theorem finalize_failure_keeps_terminal_session_witness :
    ((process_event_note exEventScratch "ok" (some 1) false).1 =
          some (EventStep.waitingNote, exEventScratch) ∧
        (process_event_note exEventScratch "ok" (some 1) false).2.1 = Reply.failure) ∧
      process_sport_selection exRegScratch "sports_done" false =
        (some (RegStep.waitingSports, exRegScratch), Reply.failure) :=
  ⟨finalize_failure_keeps_terminal_session.1 exEventScratch "ok" 1 (by decide),
   finalize_failure_keeps_terminal_session.2 exRegScratch (by decide)⟩

/-- Claim C5: an input the step validator rejects leaves the step and the
scratch unchanged, and hence any number of consecutive rejected inputs leaves
the session exactly where it was — shown for the registration age step and
the event-creation date step. -/
theorem invalid_input_never_advances :
    (∀ (sc : RegScratch) (ts : List String),
        (∀ t ∈ ts, (process_age sc t).2.2 = Reply.rejection) →
        ts.foldl applyAge (RegStep.waitingAge, sc) = (RegStep.waitingAge, sc)) ∧
    (∀ (sc : EventScratch) (now : Nat) (ins : List (String × Option Nat)),
        (∀ i ∈ ins, (process_event_date sc i.1 i.2 now).2.2 = Reply.rejection) →
        ins.foldl (applyDate now) (EventStep.waitingDate, sc) =
          (EventStep.waitingDate, sc)) := by
  constructor
  · intro sc ts h
    induction ts with
    | nil => rfl
    | cons t ts ih =>
      have h1 := h t (List.mem_cons_self t ts)
      have hstep : applyAge (RegStep.waitingAge, sc) t = (RegStep.waitingAge, sc) := by
        simp [applyAge, process_age_rejected_unchanged sc t h1]
      rw [List.foldl_cons, hstep]
      exact ih (fun t' ht' => h t' (List.mem_cons_of_mem t ht'))
  · intro sc now ins h
    induction ins with
    | nil => rfl
    | cons i ins ih =>
      have h1 := h i (List.mem_cons_self i ins)
      have hstep : applyDate now (EventStep.waitingDate, sc) i =
          (EventStep.waitingDate, sc) := by
        simp [applyDate, process_event_date_rejected_unchanged sc i.1 i.2 now h1]
      rw [List.foldl_cons, hstep]
      exact ih (fun i' hi' => h i' (List.mem_cons_of_mem i hi'))

/-- Witness for `invalid_input_never_advances`: three rejected age inputs and
two rejected date inputs in a row. -/
theorem invalid_input_never_advances_witness :
    ["abc", "5", "1000"].foldl applyAge (RegStep.waitingAge, emptyReg) =
        (RegStep.waitingAge, emptyReg) ∧
      [("x", (none : Option Nat)), ("25.12.2020 18:00", some 3)].foldl
          (applyDate 100) (EventStep.waitingDate, exEventScratch) =
        (EventStep.waitingDate, exEventScratch) :=
  ⟨invalid_input_never_advances.1 emptyReg ["abc", "5", "1000"] (by decide),
   invalid_input_never_advances.2 exEventScratch 100
     [("x", none), ("25.12.2020 18:00", some 3)] (by decide)⟩

/-- Claim C8: a parsed `max_participants` of 0 or less and a parsed fee of 0
or less are stored as absent (never as zero or a negative value), and the
finalize payload hands exactly the stored values to `create_event`. -/
theorem nonpositive_limits_stored_absent :
    (∀ (sc : EventScratch) (t : String) (n : Int), pyParseInt (pyStrip t) = some n →
        (process_event_max_participants sc t).2.1.max_participants =
          (if n ≤ 0 then none else some n)) ∧
    (∀ (sc : EventScratch) (q : Rat),
        (process_event_fee sc (some q)).2.1.fee =
          (if q ≤ 0 then none else some q)) ∧
    (∀ (sc : EventScratch) (t : String) (uid : Nat) (ok : Bool)
        (pl : EventPayload),
        (process_event_note sc t (some uid) ok).2.2 = some pl →
        pl.max_participants = sc.max_participants ∧ pl.fee = sc.fee) := by
  refine ⟨?_, ?_, ?_⟩
  · intro sc t n hp
    simp [process_event_max_participants, hp]
  · intro sc q
    simp [process_event_fee]
  · intro sc t uid ok pl h
    by_cases h0 : t = ""
    · simp [process_event_note, h0] at h
    · cases ok with
      | true =>
        simp [process_event_note, h0] at h
        exact ⟨by rw [← h], by rw [← h]⟩
      | false =>
        simp [process_event_note, h0] at h
        exact ⟨by rw [← h], by rw [← h]⟩

/-- Witness for `nonpositive_limits_stored_absent`: input 0 for both limits
and the payload built at the note step. -/
theorem nonpositive_limits_stored_absent_witness :
    (process_event_max_participants exEventScratch "0").2.1.max_participants =
        (if (0 : Int) ≤ 0 then none else some 0) ∧
      (process_event_fee exEventScratch (some 0)).2.1.fee =
        (if (0 : Rat) ≤ 0 then none else some 0) ∧
      (exPayload.max_participants = exEventScratch.max_participants ∧
        exPayload.fee = exEventScratch.fee) :=
  ⟨nonpositive_limits_stored_absent.1 exEventScratch "0" 0 (by decide),
   nonpositive_limits_stored_absent.2.1 exEventScratch 0,
   nonpositive_limits_stored_absent.2.2 exEventScratch "note" 1 true exPayload
     (by decide)⟩

/-- Claim C9 fails on the code: at the gender step the crafted callback
`gender_x` (not offered by the keyboard) passes the state checker, is stored
as the gender `other`, and the flow advances to the city step. -/
theorem gender_unknown_callback_accepted :
    check_gender_callback (some RegStep.waitingGender) "gender_x" = true ∧
      (process_gender emptyReg "gender_x").1 = RegStep.waitingCity ∧
      (process_gender emptyReg "gender_x").2.1.gender = some "other" := by
  refine ⟨by decide, rfl, by decide⟩

/-- Claim C9 (amended): callbacks without the `gender_` prefix never reach
the handler (the flow does not advance), while ANY callback with the prefix
is accepted: `gender_male` and `gender_female` store `male` / `female`, and
every other prefixed data is stored as `other`; in all accepted cases the
flow advances to the city step. -/
theorem gender_step_accepts_any_prefixed_callback :
    (∀ sc : RegScratch,
        (process_gender sc "gender_male").2.1.gender = some "male" ∧
          (process_gender sc "gender_female").2.1.gender = some "female") ∧
    (∀ (st : Option RegStep) (d : String), startsWithStr d "gender_" = false →
        check_gender_callback st d = false) ∧
    (∀ (sc : RegScratch) (d : String), d ≠ "gender_male" → d ≠ "gender_female" →
        (process_gender sc d).1 = RegStep.waitingCity ∧
          (process_gender sc d).2.1.gender = some "other") := by
  refine ⟨?_, ?_, ?_⟩
  · intro sc
    constructor <;> rfl
  · intro st d h
    simp [check_gender_callback, h]
  · intro sc d h1 h2
    refine ⟨rfl, ?_⟩
    by_cases h3 : d = "gender_other"
    · subst h3; rfl
    · have e1 : ("gender_male" == d) = false := beq_eq_false_iff_ne.mpr (Ne.symm h1)
      have e2 : ("gender_female" == d) = false := beq_eq_false_iff_ne.mpr (Ne.symm h2)
      have e3 : ("gender_other" == d) = false := beq_eq_false_iff_ne.mpr (Ne.symm h3)
      simp [process_gender, gender_map_get, gender_map, List.find?, e1, e2, e3]

/-- Witness for `gender_step_accepts_any_prefixed_callback`. -/
theorem gender_step_accepts_any_prefixed_callback_witness :
    ((process_gender emptyReg "gender_male").2.1.gender = some "male" ∧
        (process_gender emptyReg "gender_female").2.1.gender = some "female") ∧
      check_gender_callback (some RegStep.waitingGender) "sport_Бег" = false ∧
      ((process_gender emptyReg "gender_zzz").1 = RegStep.waitingCity ∧
        (process_gender emptyReg "gender_zzz").2.1.gender = some "other") :=
  ⟨gender_step_accepts_any_prefixed_callback.1 emptyReg,
   gender_step_accepts_any_prefixed_callback.2.1 (some RegStep.waitingGender)
     "sport_Бег" (by decide),
   gender_step_accepts_any_prefixed_callback.2.2 emptyReg "gender_zzz"
     (by decide) (by decide)⟩

lemma broadcast_loop_attempted (sendOk : Nat → Bool) :
    ∀ (users : List AdminUserRec) (acc : BroadcastCounts × List Nat),
      (broadcast_send_loop sendOk acc users).2 =
        acc.2 ++ users.filterMap (fun u => u.telegram_id) := by
  intro users
  induction users with
  | nil => intro acc; simp [broadcast_send_loop]
  | cons u rest ih =>
    intro acc
    cases ht : u.telegram_id with
    | none => simp [broadcast_send_loop, ht, ih]
    | some tid =>
      by_cases hs : sendOk tid = true
      · simp [broadcast_send_loop, ht, hs, ih]
      · simp only [Bool.not_eq_true] at hs
        simp [broadcast_send_loop, ht, hs, ih]

lemma broadcast_loop_total (sendOk : Nat → Bool) :
    ∀ (users : List AdminUserRec) (acc : BroadcastCounts × List Nat),
      (broadcast_send_loop sendOk acc users).1.total_count =
        acc.1.total_count + users.length := by
  intro users
  induction users with
  | nil => intro acc; simp [broadcast_send_loop]
  | cons u rest ih =>
    intro acc
    cases ht : u.telegram_id with
    | none => simp [broadcast_send_loop, ht, ih]; omega
    | some tid =>
      by_cases hs : sendOk tid = true
      · simp [broadcast_send_loop, ht, hs, ih]; omega
      · simp only [Bool.not_eq_true] at hs
        simp [broadcast_send_loop, ht, hs, ih]; omega

lemma broadcast_loop_success (sendOk : Nat → Bool) :
    ∀ (users : List AdminUserRec) (acc : BroadcastCounts × List Nat),
      (∀ u ∈ users, u.telegram_id.isSome = true) →
      (broadcast_send_loop sendOk acc users).1.success_count =
        acc.1.success_count +
          (users.filterMap (fun u => u.telegram_id)).countP sendOk := by
  intro users
  induction users with
  | nil => intro acc _; simp [broadcast_send_loop]
  | cons u rest ih =>
    intro acc h
    have hrest : ∀ v ∈ rest, v.telegram_id.isSome = true :=
      fun v hv => h v (List.mem_cons_of_mem u hv)
    cases ht : u.telegram_id with
    | none =>
      exfalso
      have := h u (List.mem_cons_self u rest)
      rw [ht] at this
      simp at this
    | some tid =>
      by_cases hs : sendOk tid = true
      · simp [broadcast_send_loop, ht, hs, ih _ hrest, List.countP_cons]
        omega
      · simp only [Bool.not_eq_true] at hs
        simp [broadcast_send_loop, ht, hs, ih _ hrest, List.countP_cons]

lemma broadcast_loop_fail (sendOk : Nat → Bool) :
    ∀ (users : List AdminUserRec) (acc : BroadcastCounts × List Nat),
      (∀ u ∈ users, u.telegram_id.isSome = true) →
      (broadcast_send_loop sendOk acc users).1.fail_count =
        acc.1.fail_count +
          (users.filterMap (fun u => u.telegram_id)).countP
            (fun tid => !sendOk tid) := by
  intro users
  induction users with
  | nil => intro acc _; simp [broadcast_send_loop]
  | cons u rest ih =>
    intro acc h
    have hrest : ∀ v ∈ rest, v.telegram_id.isSome = true :=
      fun v hv => h v (List.mem_cons_of_mem u hv)
    cases ht : u.telegram_id with
    | none =>
      exfalso
      have := h u (List.mem_cons_self u rest)
      rw [ht] at this
      simp at this
    | some tid =>
      by_cases hs : sendOk tid = true
      · simp [broadcast_send_loop, ht, hs, ih _ hrest, List.countP_cons]
      · simp only [Bool.not_eq_true] at hs
        simp [broadcast_send_loop, ht, hs, ih _ hrest, List.countP_cons]
        omega

/-- Claim C6: at every step of every flow, the text `/cancel` is dispatched
to `cmd_cancel` — every earlier handler's filters skip commands or require an
unregistered state filter — which clears the session, reports the
cancellation, and performs no `api_client` call (no domain write). -/
theorem cancel_always_clears_session_without_domain_write :
    ∀ st : FSMState,
      dispatchMessage "/cancel" (some st) = some MsgHandler.cmd_cancel_h ∧
        (cmd_cancel (some st)).session = none ∧
        (cmd_cancel (some st)).reply = CancelReply.cancelled ∧
        (cmd_cancel (some st)).api_calls = [] := by
  decide

/-- Claim C7: when every recipient carries a `telegram_id` (the column is
non-nullable), the broadcast finalize attempts a send to every recipient in
order — one failure never stops the loop — counts every outcome, and both
persists and reports the aggregate counters: total equals the number of
recipients, success counts the sends that succeeded, failure the sends that
raised. -/
theorem broadcast_failure_does_not_abort
    (users : List AdminUserRec) (sendOk : Nat → Bool) (b : BroadcastRec)
    (h : ∀ u ∈ users, u.telegram_id.isSome = true) :
    (send_broadcast_async users sendOk b).2.2 =
        users.filterMap (fun u => u.telegram_id) ∧
      (send_broadcast_async users sendOk b).2.1.total_count = users.length ∧
      (send_broadcast_async users sendOk b).2.1.success_count =
        (users.filterMap (fun u => u.telegram_id)).countP sendOk ∧
      (send_broadcast_async users sendOk b).2.1.fail_count =
        (users.filterMap (fun u => u.telegram_id)).countP
          (fun tid => !sendOk tid) ∧
      (send_broadcast_async users sendOk b).1 =
        complete_broadcast b
          (send_broadcast_async users sendOk b).2.1.total_count
          (send_broadcast_async users sendOk b).2.1.success_count
          (send_broadcast_async users sendOk b).2.1.fail_count := by
  refine ⟨?_, ?_, ?_, ?_, rfl⟩
  · simpa [send_broadcast_async] using broadcast_loop_attempted sendOk users
      ({ total_count := 0, success_count := 0, fail_count := 0 }, [])
  · simpa [send_broadcast_async] using broadcast_loop_total sendOk users
      ({ total_count := 0, success_count := 0, fail_count := 0 }, [])
  · simpa [send_broadcast_async] using broadcast_loop_success sendOk users
      ({ total_count := 0, success_count := 0, fail_count := 0 }, []) h
  · simpa [send_broadcast_async] using broadcast_loop_fail sendOk users
      ({ total_count := 0, success_count := 0, fail_count := 0 }, []) h

/-- Witness for `broadcast_failure_does_not_abort`: the spec scenario of
three recipients where recipient 2's send fails — sends attempted to all
three, total 3, success 2, fail 1, persisted. -/
theorem broadcast_failure_does_not_abort_witness :
    (send_broadcast_async exUsers exSendOk exBroadcast).2.2 = [1, 2, 3] ∧
      (send_broadcast_async exUsers exSendOk exBroadcast).2.1.total_count = 3 ∧
      (send_broadcast_async exUsers exSendOk exBroadcast).2.1.success_count = 2 ∧
      (send_broadcast_async exUsers exSendOk exBroadcast).2.1.fail_count = 1 ∧
      (send_broadcast_async exUsers exSendOk exBroadcast).1 =
        complete_broadcast exBroadcast 3 2 1 := by
  have h := broadcast_failure_does_not_abort exUsers exSendOk exBroadcast
    (by decide)
  refine ⟨?_, ?_, ?_, ?_, ?_⟩
  · exact h.1
  · exact h.2.1
  · exact h.2.2.1
  · exact h.2.2.2.1
  · have := h.2.2.2.2
    simpa [h.2.1, h.2.2.1, h.2.2.2.1] using this

end Bot
